import Mathlib

set_option autoImplicit false

/-!
Shallow embedding of `internal/service/route53resolver/rule_association.go`
(Terraform resources `aws_route53_resolver_rule_association` and
`aws_rds_instance_automated_backup_replication`) from the
terraform-provider-aws repository.

Modelling conventions:
* AWS SDK calls and the terraform-plugin-sdk poller (`retry.StateChangeConf.
  WaitForStateContext`) are external code; they are modelled as oracle fields
  of an environment record, so theorems quantify over every possible remote
  behaviour.
* Go `error` values are an inductive `GoErr`; a Go `nil` error is `none` in
  `Option GoErr`.  `errors.As`-style unwrapping follows `Unwrap` edges
  (`fmt.Errorf %w` wrapping, and `retry.NotFoundError.Unwrap` which returns
  `LastError`).
* Go `*string` fields are `Option String`; `aws.ToString`/`aws.StringValue`
  is `awsToString` (`nil` becomes `""`).
* A Go nil-pointer dereference (impossible on the paths the theorems cover)
  is modelled by a handler returning `none`.
* `time.Duration` is a `Nat` count of nanoseconds.
* Each handler also returns the list of external calls it performed, in
  order, so that "exactly one SDK call" and "blocks only on the poller"
  become provable statements.
-/

namespace TfAws

/-- One nanosecond, the unit of Go `time.Duration`. -/
def nanosecond : Nat := 1

/-- Go `time.Second` in nanoseconds. -/
def second : Nat := 1000000000

/-- Go `time.Minute` in nanoseconds. -/
def minute : Nat := 60 * second

/-- Go `aws.ToString` / `aws.StringValue`: dereference a `*string`, mapping nil to `""`. -/
def awsToString (s : Option String) : String := s.getD ""

/-- Input of the SDK call `GetResolverRuleAssociation`. -/
structure GetResolverRuleAssociationInput where
  ResolverRuleAssociationId : Option String

/-- Input of the SDK call `AssociateResolverRule`. -/
structure AssociateResolverRuleInput where
  Name : Option String
  ResolverRuleId : Option String
  VPCId : Option String

/-- Input of the SDK call `DisassociateResolverRule`. -/
structure DisassociateResolverRuleInput where
  ResolverRuleId : Option String
  VPCId : Option String

/-- The remote object `awstypes.ResolverRuleAssociation`.  `Status` is the string-valued
enum `ResolverRuleAssociationStatus`; the other fields are `*string`. -/
structure ResolverRuleAssociation where
  Id : Option String
  Name : Option String
  ResolverRuleId : Option String
  VPCId : Option String
  Status : String
  StatusMessage : Option String

/-- Output of the SDK call `AssociateResolverRule`. -/
structure AssociateResolverRuleOutput where
  ResolverRuleAssociation : Option ResolverRuleAssociation

/-- Output of the SDK call `GetResolverRuleAssociation`. -/
structure GetResolverRuleAssociationOutput where
  ResolverRuleAssociation : Option ResolverRuleAssociation

/-- A request value recorded inside a `retry.NotFoundError` / `EmptyResultError`
(`LastRequest` field). -/
inductive SDKRequest where
  | getResolverRuleAssociation (input : GetResolverRuleAssociationInput)

/-- Go `error` values that occur in this file.
* `resourceNotFoundException` : `awstypes.ResourceNotFoundException` from the SDK;
* `notFoundError` : the framework sentinel `retry.NotFoundError` with its
  `LastError` and `LastRequest` fields;
* `emptyResultError` : `tfresource.NewEmptyResultError lastRequest`;
* `timeoutError` : the poller's `retry.TimeoutError` with its `LastError` field;
* `errorString` : `errors.New message`;
* `wrapped` : an error produced by wrapping another error with a static
  message (`fmt.Errorf` with `%w`, `sdkdiag.AppendErrorf`). -/
inductive GoErr where
  | resourceNotFoundException (message : String)
  | notFoundError (lastError : Option GoErr) (lastRequest : Option SDKRequest)
  | emptyResultError (lastRequest : Option SDKRequest)
  | timeoutError (lastError : Option GoErr)
  | errorString (message : String)
  | wrapped (message : String) (cause : GoErr)

/-- `errors.As(err, **retry.NotFoundError)`: does `err` unwrap to the framework's
not-found sentinel?  Unwrapping follows `%w` wrapping. -/
def goErrorAsNotFound : GoErr → Bool
  | .notFoundError _ _ => true
  | .wrapped _ cause => goErrorAsNotFound cause
  | _ => false

/-- `tfresource.NotFound err` for a possibly-nil error: true iff `err` unwraps to a
`retry.NotFoundError`. -/
def tfNotFound : Option GoErr → Bool
  | none => false
  | some e => goErrorAsNotFound e

/-- `errs.IsA[*awstypes.ResourceNotFoundException] err` on a non-nil error: `errors.As`
reaches a `ResourceNotFoundException` through `%w` wrapping and through
`retry.NotFoundError.Unwrap` (which returns `LastError`). -/
def goErrorAsRNFE : GoErr → Bool
  | .resourceNotFoundException _ => true
  | .wrapped _ cause => goErrorAsRNFE cause
  | .notFoundError (some lastError) _ => goErrorAsRNFE lastError
  | _ => false

/-- `errs.IsA[*awstypes.ResourceNotFoundException] err` for a possibly-nil error. -/
def errsIsARNFE : Option GoErr → Bool
  | none => false
  | some e => goErrorAsRNFE e

/-- Modelled from the spec: `tfresource.SetLastError` is repository code that lives
outside this source file.  Per the spec, a timeout during polling is surfaced as a
wrapped error referencing the remote object's status message: `SetLastError` attaches
the given last error to a poller timeout error that does not already carry one, and
leaves every other (or nil) error unchanged. -/
def setLastError : Option GoErr → GoErr → Option GoErr
  | some (.timeoutError none), lastErr => some (.timeoutError (some lastErr))
  | e, _ => e

/-- The string value of `awstypes.ResolverRuleAssociationStatusCreating`. -/
def ResolverRuleAssociationStatusCreating : String := "CREATING"

/-- The string value of `awstypes.ResolverRuleAssociationStatusComplete`. -/
def ResolverRuleAssociationStatusComplete : String := "COMPLETE"

/-- The string value of `awstypes.ResolverRuleAssociationStatusDeleting`. -/
def ResolverRuleAssociationStatusDeleting : String := "DELETING"

/-- The fields of `retry.StateChangeConf` that `rule_association.go` sets.  `Refresh`
is the state refresh closure (`retry.StateRefreshFunc`); `none` as its result models a
Go panic inside the refresh function. -/
structure StateChangeConf where
  Pending : List String
  Target : List String
  Refresh : Unit → Option (Option ResolverRuleAssociation × String × Option GoErr)
  Timeout : Nat
  Delay : Nat
  MinTimeout : Nat

/-- Environment of external behaviour for the Route53 Resolver resource: the three AWS
SDK calls the file makes, plus the framework poller `WaitForStateContext` (which
returns the last refresh result as `interface` plus an error). -/
structure R53Env where
  associateResolverRule :
    AssociateResolverRuleInput → Option AssociateResolverRuleOutput × Option GoErr
  getResolverRuleAssociation :
    GetResolverRuleAssociationInput → Option GetResolverRuleAssociationOutput × Option GoErr
  disassociateResolverRule : DisassociateResolverRuleInput → Option GoErr
  waitForState : StateChangeConf → Option ResolverRuleAssociation × Option GoErr

/-- The local Terraform state (`*schema.ResourceData`) of an
`aws_route53_resolver_rule_association` resource: resource id, the three schema
attributes, the `IsNewResource` flag and the two configured timeouts. -/
structure RuleAssociationData where
  id : String
  name : String
  resolver_rule_id : String
  vpc_id : String
  isNew : Bool
  timeoutCreate : Nat
  timeoutDelete : Nat

/-- An external call performed by a Route53 Resolver handler, in order. -/
inductive R53Call where
  | associateResolverRule (input : AssociateResolverRuleInput)
  | getResolverRuleAssociation (input : GetResolverRuleAssociationInput)
  | disassociateResolverRule (input : DisassociateResolverRuleInput)
  | waitForState (conf : StateChangeConf)

/-- Result of a Route53 Resolver handler: the returned diagnostics (`none` = success),
the final local state, and the external calls performed. -/
structure R53Result where
  diags : Option GoErr
  d : RuleAssociationData
  calls : List R53Call

/-- The `GetResolverRuleAssociationInput` built by `findResolverRuleAssociationByID`. -/
def getInput (id : String) : GetResolverRuleAssociationInput :=
  { ResolverRuleAssociationId := some id }

/-- `findResolverRuleAssociationByID`: one `GetResolverRuleAssociation` SDK call; a
`ResourceNotFoundException` becomes a `retry.NotFoundError` carrying the last error and
request; other errors pass through; a nil output or nil embedded association becomes an
`EmptyResultError`. -/
def findResolverRuleAssociationByID (env : R53Env) (id : String) :
    Option ResolverRuleAssociation × Option GoErr :=
  match env.getResolverRuleAssociation (getInput id) with
  | (_, some e) =>
    if goErrorAsRNFE e then
      (none, some (.notFoundError (some e) (some (.getResolverRuleAssociation (getInput id)))))
    else
      (none, some e)
  | (some output, none) =>
    match output.ResolverRuleAssociation with
    | some assoc => (some assoc, none)
    | none => (none, some (.emptyResultError (some (.getResolverRuleAssociation (getInput id)))))
  | (none, none) =>
    (none, some (.emptyResultError (some (.getResolverRuleAssociation (getInput id)))))

/-- `statusRuleAssociation`: adapts the lookup into the poller's
(object, status string, error) shape; a not-found lookup becomes `(nil, "", nil)`.
The outer `none` models the nil dereference that Go would perform if the lookup
returned a nil object with a nil error (proved unreachable below). -/
def statusRuleAssociation (env : R53Env) (id : String) :
    Option (Option ResolverRuleAssociation × String × Option GoErr) :=
  match findResolverRuleAssociationByID env id with
  | (output, err) =>
    if tfNotFound err then
      some (none, "", none)
    else
      match err with
      | some e => some (none, "", some e)
      | none =>
        match output with
        | some o => some (some o, o.Status, none)
        | none => none

/-- The `retry.StateChangeConf` built by `waitRuleAssociationCreated`. -/
def ruleAssociationCreatedConf (env : R53Env) (id : String) (timeout : Nat) :
    StateChangeConf :=
  { Pending := [ResolverRuleAssociationStatusCreating]
    Target := [ResolverRuleAssociationStatusComplete]
    Refresh := fun _ => statusRuleAssociation env id
    Timeout := timeout
    Delay := 10 * second
    MinTimeout := 5 * second }

/-- The `retry.StateChangeConf` built by `waitRuleAssociationDeleted`. -/
def ruleAssociationDeletedConf (env : R53Env) (id : String) (timeout : Nat) :
    StateChangeConf :=
  { Pending := [ResolverRuleAssociationStatusDeleting]
    Target := []
    Refresh := fun _ => statusRuleAssociation env id
    Timeout := timeout
    Delay := 10 * second
    MinTimeout := 5 * second }

/-- `waitRuleAssociationCreated`: run the poller; when the last refresh produced an
association, attach its status message to the returned error via `SetLastError`. -/
def waitRuleAssociationCreated (env : R53Env) (id : String) (timeout : Nat) :
    Option ResolverRuleAssociation × Option GoErr :=
  match env.waitForState (ruleAssociationCreatedConf env id timeout) with
  | (some output, err) =>
    (some output, setLastError err (.errorString (awsToString output.StatusMessage)))
  | (none, err) => (none, err)

/-- `waitRuleAssociationDeleted`: run the poller; when the last refresh produced an
association, attach its status message to the returned error via `SetLastError`. -/
def waitRuleAssociationDeleted (env : R53Env) (id : String) (timeout : Nat) :
    Option ResolverRuleAssociation × Option GoErr :=
  match env.waitForState (ruleAssociationDeletedConf env id timeout) with
  | (some output, err) =>
    (some output, setLastError err (.errorString (awsToString output.StatusMessage)))
  | (none, err) => (none, err)

/-- The `AssociateResolverRuleInput` built by `resourceRuleAssociationCreate`:
required attributes always, the optional `name` only when `d.GetOk` reports it set
(a non-empty string). -/
def associateInput (d : RuleAssociationData) : AssociateResolverRuleInput :=
  { Name := if d.name = "" then none else some d.name
    ResolverRuleId := some d.resolver_rule_id
    VPCId := some d.vpc_id }

/-- The `DisassociateResolverRuleInput` built by `resourceRuleAssociationDelete`. -/
def disassociateInput (d : RuleAssociationData) : DisassociateResolverRuleInput :=
  { ResolverRuleId := some d.resolver_rule_id
    VPCId := some d.vpc_id }

/-- `resourceRuleAssociationRead`: one lookup; if the resource is not new and the
lookup reports not found, clear the id and succeed; an error is wrapped; otherwise the
remote fields are copied into state. -/
def resourceRuleAssociationRead (env : R53Env) (d : RuleAssociationData) :
    Option R53Result :=
  match findResolverRuleAssociationByID env d.id with
  | (found, err) =>
    if !d.isNew && tfNotFound err then
      some { diags := none, d := { d with id := "" },
             calls := [.getResolverRuleAssociation (getInput d.id)] }
    else
    match err with
    | some e =>
      some { diags := some (.wrapped "reading Route53 Resolver Rule Association" e),
             d := d, calls := [.getResolverRuleAssociation (getInput d.id)] }
    | none =>
      match found with
      | some ruleAssociation =>
        some { diags := none,
               d := { d with
                      name := awsToString ruleAssociation.Name,
                      resolver_rule_id := awsToString ruleAssociation.ResolverRuleId,
                      vpc_id := awsToString ruleAssociation.VPCId },
               calls := [.getResolverRuleAssociation (getInput d.id)] }
      | none => none

/-- `resourceRuleAssociationCreate`: build the input, one `AssociateResolverRule`
call (an error is wrapped and returned with the state untouched), store the returned
association id, block on the created-waiter, then run the read handler. -/
def resourceRuleAssociationCreate (env : R53Env) (d : RuleAssociationData) :
    Option R53Result :=
  let input := associateInput d
  match env.associateResolverRule input with
  | (_, some e) =>
    some { diags := some (.wrapped "creating Route53 Resolver Rule Association" e),
           d := d, calls := [.associateResolverRule input] }
  | (some output, none) =>
    match output.ResolverRuleAssociation with
    | none => none
    | some assoc =>
      let d1 := { d with id := awsToString assoc.Id }
      let conf := ruleAssociationCreatedConf env d1.id d1.timeoutCreate
      match (waitRuleAssociationCreated env d1.id d1.timeoutCreate).2 with
      | some e =>
        some { diags :=
                 some (.wrapped "waiting for Route53 Resolver Rule Association create" e),
               d := d1, calls := [.associateResolverRule input, .waitForState conf] }
      | none =>
        match resourceRuleAssociationRead env d1 with
        | none => none
        | some r =>
          some { diags := r.diags, d := r.d,
                 calls := [.associateResolverRule input, .waitForState conf] ++ r.calls }
  | (none, none) => none

/-- `resourceRuleAssociationDelete`: one `DisassociateResolverRule` call; a
`ResourceNotFoundException` is success; another error is wrapped; otherwise block on
the deleted-waiter. -/
def resourceRuleAssociationDelete (env : R53Env) (d : RuleAssociationData) : R53Result :=
  let input := disassociateInput d
  let err := env.disassociateResolverRule input
  if errsIsARNFE err then
    { diags := none, d := d, calls := [.disassociateResolverRule input] }
  else
    match err with
    | some e =>
      { diags := some (.wrapped "deleting Route53 Resolver Rule Association" e),
        d := d, calls := [.disassociateResolverRule input] }
    | none =>
      let conf := ruleAssociationDeletedConf env d.id d.timeoutDelete
      match (waitRuleAssociationDeleted env d.id d.timeoutDelete).2 with
      | some e =>
        { diags :=
            some (.wrapped "waiting for Route53 Resolver Rule Association delete" e),
          d := d,
          calls := [.disassociateResolverRule input, .waitForState conf] }
      | none =>
        { diags := none, d := d,
          calls := [.disassociateResolverRule input, .waitForState conf] }

/-- The `Timeouts` block of a `schema.Resource`. -/
structure ResourceTimeouts where
  Create : Option Nat
  Delete : Option Nat

/-- The parts of the `schema.Resource` returned by `resourceRuleAssociation` that the
claims mention: the configured default timeouts. -/
structure SchemaResource where
  Timeouts : ResourceTimeouts

/-- `resourceRuleAssociation`: `Create` and `Delete` default timeouts are ten
minutes. -/
def resourceRuleAssociation : SchemaResource :=
  { Timeouts := { Create := some (10 * minute), Delete := some (10 * minute) } }

/-! ### RDS instance automated backup replication -/

/-- An AWS ARN as parsed by `aws/arn.Parse`. -/
structure ARN where
  partition : String
  service : String
  region : String
  accountID : String
  resource : String

/-- Split a character list on a separator character (`strings.Split`). -/
def splitOnChar (sep : Char) : List Char → List (List Char)
  | [] => [[]]
  | c :: cs =>
    let rest := splitOnChar sep cs
    if c = sep then
      [] :: rest
    else
      match rest with
      | r :: rs => (c :: r) :: rs
      | [] => [[c]]

/-- Join character lists with a separator character (inverse of the split beyond the
section limit, as `strings.SplitN` leaves the remainder unsplit). -/
def joinChars (sep : Char) : List (List Char) → List Char
  | [] => []
  | [l] => l
  | l :: ls => l ++ sep :: joinChars sep ls

/-- `aws/arn.Parse`: require the `arn:` marker at the start, split on `:` into six
sections (the sixth keeps any further `:` unsplit), and read partition, service,
region, account id and resource out of sections one to five. -/
def arnParse (s : String) : Except GoErr ARN :=
  if s.toList.take 4 ≠ ['a', 'r', 'n', ':'] then
    .error (.errorString "arn: invalid sections")
  else
    let sections := splitOnChar ':' s.toList
    if sections.length < 6 then
      .error (.errorString "arn: not enough sections")
    else
      .ok { partition := String.mk (sections.getD 1 [])
            service := String.mk (sections.getD 2 [])
            region := String.mk (sections.getD 3 [])
            accountID := String.mk (sections.getD 4 [])
            resource := String.mk (joinChars ':' (sections.drop 5)) }

/-- The remote object `rds.DBInstanceAutomatedBackup` (the fields this file reads). -/
structure DBInstanceAutomatedBackup where
  DBInstanceIdentifier : Option String
  DBInstanceArn : Option String
  DBInstanceAutomatedBackupsArn : Option String
  KmsKeyId : Option String
  BackupRetentionPeriod : Option Int

/-- Input of the SDK call `StartDBInstanceAutomatedBackupsReplication`. -/
structure StartDBInstanceAutomatedBackupsReplicationInput where
  BackupRetentionPeriod : Option Int
  KmsKeyId : Option String
  SourceDBInstanceArn : Option String

/-- Output of the SDK call `StartDBInstanceAutomatedBackupsReplication`. -/
structure StartDBInstanceAutomatedBackupsReplicationOutput where
  DBInstanceAutomatedBackup : Option DBInstanceAutomatedBackup

/-- Input of the SDK call `StopDBInstanceAutomatedBackupsReplication`. -/
structure StopDBInstanceAutomatedBackupsReplicationInput where
  SourceDBInstanceArn : Option String

/-- Environment of external behaviour for the RDS resource.  `region` is the region of
the provider's client (`meta.(*conns.AWSClient).Region`).  The find and wait helpers
are repository code defined outside this source file; they are kept abstract here (see
the wrapper definitions below). -/
structure RDSEnv where
  region : String
  startReplication :
    StartDBInstanceAutomatedBackupsReplicationInput →
      Option StartDBInstanceAutomatedBackupsReplicationOutput × Option GoErr
  stopReplication : StopDBInstanceAutomatedBackupsReplicationInput → Option GoErr
  findBackupByARN : String → Option DBInstanceAutomatedBackup × Option GoErr
  waitBackupCreated : String → Nat → Option GoErr
  waitBackupDeleted : String → String → String → Nat → Option GoErr

/-- Modelled from the spec: `FindDBInstanceAutomatedBackupByARN` is repository code
outside this source file; per the spec it is "a find-by-id lookup wrapping one SDK
read call" that returns the backup, a not-found sentinel, or an error, so it is kept
abstract as an oracle of the environment. -/
def FindDBInstanceAutomatedBackupByARN (env : RDSEnv) (arn : String) :
    Option DBInstanceAutomatedBackup × Option GoErr :=
  env.findBackupByARN arn

/-- Modelled from the spec: `waitDBInstanceAutomatedBackupCreated` is repository code
outside this source file; per the spec it blocks on the generic framework poller until
the target status is observed, so its outcome is kept abstract. -/
def waitDBInstanceAutomatedBackupCreated (env : RDSEnv) (arn : String) (timeout : Nat) :
    Option GoErr :=
  env.waitBackupCreated arn timeout

/-- Modelled from the spec: `waitDBInstanceAutomatedBackupDeleted` is repository code
outside this source file; per the spec it blocks on the generic framework poller until
the object disappears, so its outcome is kept abstract.  The first argument is the
region of the client connection the wait is performed on. -/
def waitDBInstanceAutomatedBackupDeleted (env : RDSEnv) (connRegion : String)
    (dbInstanceID : String) (arn : String) (timeout : Nat) : Option GoErr :=
  env.waitBackupDeleted connRegion dbInstanceID arn timeout

/-- The local Terraform state (`*schema.ResourceData`) of an
`aws_rds_instance_automated_backup_replication` resource. -/
structure BackupReplicationData where
  id : String
  kms_key_id : String
  retention_period : Int
  source_db_instance_arn : String
  isNew : Bool
  timeoutCreate : Nat
  timeoutDelete : Nat

/-- An external call performed by an RDS handler, in order.  `waitDeleted` records
whether a new client was built, the region of the client connection used, the source
database instance identifier, the backup ARN and the timeout supplied. -/
inductive RDSCall where
  | startReplication (input : StartDBInstanceAutomatedBackupsReplicationInput)
  | stopReplication (input : StopDBInstanceAutomatedBackupsReplicationInput)
  | findBackup (arn : String)
  | waitCreated (arn : String) (timeout : Nat)
  | waitDeleted (newClient : Bool) (connRegion : String) (dbInstanceID : String)
      (arn : String) (timeout : Nat)

/-- Result of an RDS handler. -/
structure RDSResult where
  diags : Option GoErr
  d : BackupReplicationData
  calls : List RDSCall

/-- The `StartDBInstanceAutomatedBackupsReplicationInput` built by the create handler:
retention period and source ARN always, the optional `kms_key_id` only when `d.GetOk`
reports it set (a non-empty string). -/
def startReplicationInput (d : BackupReplicationData) :
    StartDBInstanceAutomatedBackupsReplicationInput :=
  { BackupRetentionPeriod := some d.retention_period
    KmsKeyId := if d.kms_key_id = "" then none else some d.kms_key_id
    SourceDBInstanceArn := some d.source_db_instance_arn }

/-- The `StopDBInstanceAutomatedBackupsReplicationInput` built by the delete
handler. -/
def stopReplicationInput (d : BackupReplicationData) :
    StopDBInstanceAutomatedBackupsReplicationInput :=
  { SourceDBInstanceArn := some d.source_db_instance_arn }

/-- `resourceInstanceAutomatedBackupReplicationRead`: one lookup; if the resource is
not new and the lookup reports not found, clear the id and succeed; an error is
wrapped; otherwise the remote fields are copied into state. -/
def resourceInstanceAutomatedBackupReplicationRead (env : RDSEnv)
    (d : BackupReplicationData) : Option RDSResult :=
  match FindDBInstanceAutomatedBackupByARN env d.id with
  | (found, err) =>
    if !d.isNew && tfNotFound err then
      some { diags := none, d := { d with id := "" }, calls := [.findBackup d.id] }
    else
    match err with
    | some e =>
      some { diags := some (.wrapped "reading RDS instance automated backup replication" e),
             d := d, calls := [.findBackup d.id] }
    | none =>
      match found with
      | some backup =>
        some { diags := none,
               d := { d with
                      kms_key_id := awsToString backup.KmsKeyId,
                      retention_period := backup.BackupRetentionPeriod.getD 0,
                      source_db_instance_arn := awsToString backup.DBInstanceArn },
               calls := [.findBackup d.id] }
      | none => none

/-- `resourceInstanceAutomatedBackupReplicationCreate`: build the input, one
`StartDBInstanceAutomatedBackupsReplication` call (an error is wrapped and returned
with state untouched), store the returned backup ARN as the id, block on the created
waiter (with the create timeout), then run the read handler. -/
def resourceInstanceAutomatedBackupReplicationCreate (env : RDSEnv)
    (d : BackupReplicationData) : Option RDSResult :=
  let input := startReplicationInput d
  match env.startReplication input with
  | (_, some e) =>
    some { diags := some (.wrapped "error starting RDS instance automated backup replication" e),
           d := d, calls := [.startReplication input] }
  | (some output, none) =>
    match output.DBInstanceAutomatedBackup with
    | none => none
    | some backup =>
      let d1 := { d with id := awsToString backup.DBInstanceAutomatedBackupsArn }
      match waitDBInstanceAutomatedBackupCreated env d1.id d1.timeoutCreate with
      | some e =>
        some { diags := some (.wrapped "error waiting for DB instance automated backup create" e),
               d := d1,
               calls := [.startReplication input, .waitCreated d1.id d1.timeoutCreate] }
      | none =>
        match resourceInstanceAutomatedBackupReplicationRead env d1 with
        | none => none
        | some r =>
          some { diags := r.diags, d := r.d,
                 calls := [.startReplication input,
                           .waitCreated d1.id d1.timeoutCreate] ++ r.calls }
  | (none, none) => none

/-- `resourceInstanceAutomatedBackupReplicationDelete`: look the backup up by ARN (a
not-found lookup is success); parse the source database ARN; one
`StopDBInstanceAutomatedBackupsReplication` call; then block on the deleted waiter
using the resource's create timeout, on a client connected to the source region (a new
client if the ARN's region differs from the provider's region). -/
def resourceInstanceAutomatedBackupReplicationDelete (env : RDSEnv)
    (d : BackupReplicationData) : Option RDSResult :=
  match FindDBInstanceAutomatedBackupByARN env d.id with
  | (found, err) =>
    if tfNotFound err then
      some { diags := none, d := d, calls := [.findBackup d.id] }
    else
    match err with
    | some e =>
      some { diags := some (.wrapped "reading RDS instance automated backup replication" e),
             d := d, calls := [.findBackup d.id] }
    | none =>
      match found with
      | none => none
      | some backup =>
        let dbInstanceID := awsToString backup.DBInstanceIdentifier
        match arnParse (awsToString backup.DBInstanceArn) with
        | .error e => some { diags := some e, d := d, calls := [.findBackup d.id] }
        | .ok sourceDatabaseARN =>
          let input := stopReplicationInput d
          match env.stopReplication input with
          | some e =>
            some { diags :=
                     some (.wrapped "error stopping RDS instance automated backup replication" e),
                   d := d, calls := [.findBackup d.id, .stopReplication input] }
          | none =>
            let newClient := sourceDatabaseARN.region != env.region
            let connRegion :=
              if sourceDatabaseARN.region ≠ env.region then sourceDatabaseARN.region
              else env.region
            let wcall : RDSCall :=
              .waitDeleted newClient connRegion dbInstanceID d.id d.timeoutCreate
            match waitDBInstanceAutomatedBackupDeleted env connRegion dbInstanceID d.id
                d.timeoutCreate with
            | some e =>
              some { diags := some (.wrapped "error waiting for DB instance automated backup delete" e),
                     d := d, calls := [.findBackup d.id, .stopReplication input, wcall] }
            | none =>
              some { diags := none, d := d,
                     calls := [.findBackup d.id, .stopReplication input, wcall] }

/-- The schema of `resourceInstanceAutomatedBackupReplication` declares no `Timeouts`
block, so `d.Timeout` falls back to the plugin framework's defaults for it. -/
def resourceInstanceAutomatedBackupReplication : SchemaResource :=
  { Timeouts := { Create := none, Delete := none } }

/-! ### Helper lemmas -/

/-- Every outcome of `findResolverRuleAssociationByID` is either an association with a
nil error or a nil association with a non-nil error. -/
theorem findResolverRuleAssociationByID_shape (env : R53Env) (id : String) :
    (∃ a, findResolverRuleAssociationByID env id = (some a, none)) ∨
    (∃ e, findResolverRuleAssociationByID env id = (none, some e)) := by
  rcases h : env.getResolverRuleAssociation (getInput id) with ⟨out, err⟩
  rcases err with _ | e
  · rcases out with _ | o
    · refine Or.inr
        ⟨GoErr.emptyResultError (some (.getResolverRuleAssociation (getInput id))), ?_⟩
      simp [findResolverRuleAssociationByID, h]
    · rcases ho : o.ResolverRuleAssociation with _ | a
      · refine Or.inr
          ⟨GoErr.emptyResultError (some (.getResolverRuleAssociation (getInput id))), ?_⟩
        simp [findResolverRuleAssociationByID, h, ho]
      · refine Or.inl ⟨a, ?_⟩
        simp [findResolverRuleAssociationByID, h, ho]
  · by_cases hr : goErrorAsRNFE e = true
    · refine Or.inr
        ⟨GoErr.notFoundError (some e) (some (.getResolverRuleAssociation (getInput id))), ?_⟩
      simp [findResolverRuleAssociationByID, h, hr]
    · refine Or.inr ⟨e, ?_⟩
      simp [findResolverRuleAssociationByID, h, hr]

/-- The read handler of the rule association always returns a result (never hits the
nil dereference), performs exactly the single lookup call, and does not touch the id
when the resource is new. -/
theorem resourceRuleAssociationRead_total (env : R53Env) (d : RuleAssociationData) :
    ∃ r, resourceRuleAssociationRead env d = some r ∧
      r.calls = [.getResolverRuleAssociation (getInput d.id)] ∧
      (d.isNew = true → r.d.id = d.id) := by
  rcases findResolverRuleAssociationByID_shape env d.id with ⟨a, ha⟩ | ⟨e, he⟩
  · refine ⟨{ diags := none,
              d := { d with
                     name := awsToString a.Name,
                     resolver_rule_id := awsToString a.ResolverRuleId,
                     vpc_id := awsToString a.VPCId },
              calls := [.getResolverRuleAssociation (getInput d.id)] }, ?_, rfl,
            fun _ => rfl⟩
    simp [resourceRuleAssociationRead, ha, tfNotFound]
  · by_cases hn : (!d.isNew && tfNotFound (some e)) = true
    · refine ⟨{ diags := none, d := { d with id := "" },
                calls := [.getResolverRuleAssociation (getInput d.id)] }, ?_, rfl,
              fun hnew => ?_⟩
      · simp [resourceRuleAssociationRead, he, hn]
      · rw [hnew] at hn
        simp at hn
    · refine ⟨{ diags := some (.wrapped "reading Route53 Resolver Rule Association" e),
                d := d, calls := [.getResolverRuleAssociation (getInput d.id)] }, ?_, rfl,
              fun _ => rfl⟩
      simp [resourceRuleAssociationRead, he, hn]

/-- Whenever the rule-association read handler returns, it has performed exactly one
external call: the lookup. -/
theorem resourceRuleAssociationRead_calls (env : R53Env) (d : RuleAssociationData)
    (r : R53Result) (h : resourceRuleAssociationRead env d = some r) :
    r.calls = [.getResolverRuleAssociation (getInput d.id)] := by
  obtain ⟨r0, h0, hcalls, -⟩ := resourceRuleAssociationRead_total env d
  rw [h0] at h
  cases h
  exact hcalls

/-- Whenever the RDS backup-replication read handler returns, it has performed exactly
one external call: the lookup. -/
theorem backupReplicationRead_calls (env : RDSEnv) (d : BackupReplicationData)
    (r : RDSResult) (h : resourceInstanceAutomatedBackupReplicationRead env d = some r) :
    r.calls = [.findBackup d.id] := by
  rcases hfr : FindDBInstanceAutomatedBackupByARN env d.id with ⟨found, err⟩
  rcases err with _ | e
  · rcases found with _ | b
    · simp [resourceInstanceAutomatedBackupReplicationRead, hfr, tfNotFound] at h
    · simp only [resourceInstanceAutomatedBackupReplicationRead, hfr, tfNotFound,
        Bool.and_false, Bool.false_eq_true, if_false] at h
      cases h
      rfl
  · by_cases hn : (!d.isNew && tfNotFound (some e)) = true
    · simp only [resourceInstanceAutomatedBackupReplicationRead, hfr, hn, if_true] at h
      cases h
      rfl
    · simp only [resourceInstanceAutomatedBackupReplicationRead, hfr, hn, if_false] at h
      cases h
      rfl

/-- If the RDS lookup oracle never returns a nil backup together with a nil error, the
RDS read handler always returns a result and does not touch the id when the resource
is new. -/
theorem backupReplicationRead_total (env : RDSEnv) (d : BackupReplicationData)
    (hf : ∀ s, (env.findBackupByARN s).1.isSome ∨ (env.findBackupByARN s).2.isSome) :
    ∃ r, resourceInstanceAutomatedBackupReplicationRead env d = some r ∧
      r.calls = [.findBackup d.id] ∧
      (d.isNew = true → r.d.id = d.id) := by
  rcases hfr : FindDBInstanceAutomatedBackupByARN env d.id with ⟨found, err⟩
  have hor := hf d.id
  rw [show env.findBackupByARN d.id = (found, err) from hfr] at hor
  rcases err with _ | e
  · rcases found with _ | b
    · simp at hor
    · refine ⟨{ diags := none,
                d := { d with
                       kms_key_id := awsToString b.KmsKeyId,
                       retention_period := b.BackupRetentionPeriod.getD 0,
                       source_db_instance_arn := awsToString b.DBInstanceArn },
                calls := [.findBackup d.id] }, ?_, rfl, fun _ => rfl⟩
      simp [resourceInstanceAutomatedBackupReplicationRead, hfr, tfNotFound]
  · by_cases hn : (!d.isNew && tfNotFound (some e)) = true
    · refine ⟨{ diags := none, d := { d with id := "" },
                calls := [.findBackup d.id] }, ?_, rfl, fun hnew => ?_⟩
      · simp [resourceInstanceAutomatedBackupReplicationRead, hfr, hn]
      · rw [hnew] at hn
        simp at hn
    · refine ⟨{ diags :=
                  some (.wrapped "reading RDS instance automated backup replication" e),
                d := d, calls := [.findBackup d.id] }, ?_, rfl, fun _ => rfl⟩
      simp [resourceInstanceAutomatedBackupReplicationRead, hfr, hn]

/-- The `StateChangeConf`s of the poller invocations recorded in a trace. -/
def r53WaitConfs : List R53Call → List StateChangeConf
  | [] => []
  | .waitForState conf :: rest => conf :: r53WaitConfs rest
  | _ :: rest => r53WaitConfs rest

/-- Number of `AssociateResolverRule` calls recorded in a trace. -/
def r53AssociateCount : List R53Call → Nat
  | [] => 0
  | .associateResolverRule _ :: rest => r53AssociateCount rest + 1
  | _ :: rest => r53AssociateCount rest

/-- Number of `StartDBInstanceAutomatedBackupsReplication` calls recorded in a
trace. -/
def rdsStartCount : List RDSCall → Nat
  | [] => 0
  | .startReplication _ :: rest => rdsStartCount rest + 1
  | _ :: rest => rdsStartCount rest

/-- Number of blocking waiter invocations recorded in a trace. -/
def rdsWaitCount : List RDSCall → Nat
  | [] => 0
  | .waitCreated _ _ :: rest => rdsWaitCount rest + 1
  | .waitDeleted _ _ _ _ _ :: rest => rdsWaitCount rest + 1
  | _ :: rest => rdsWaitCount rest

/-- The possible call traces of the rule-association create handler: the failed
create call alone, or the create call followed by the poller invocation on the stored
id, optionally followed by the read handler's lookup. -/
theorem resourceRuleAssociationCreate_calls (env : R53Env) (d : RuleAssociationData)
    (r : R53Result) (h : resourceRuleAssociationCreate env d = some r) :
    r.calls = [.associateResolverRule (associateInput d)] ∨
    (∃ newId,
      r.calls = [.associateResolverRule (associateInput d),
                 .waitForState (ruleAssociationCreatedConf env newId d.timeoutCreate)] ∨
      r.calls = [.associateResolverRule (associateInput d),
                 .waitForState (ruleAssociationCreatedConf env newId d.timeoutCreate),
                 .getResolverRuleAssociation (getInput newId)]) := by
  rcases ha : env.associateResolverRule (associateInput d) with ⟨out, err⟩
  rcases err with _ | e
  · rcases out with _ | output
    · simp [resourceRuleAssociationCreate, ha] at h
    · rcases ho : output.ResolverRuleAssociation with _ | assoc
      · simp [resourceRuleAssociationCreate, ha, ho] at h
      · rcases hw : (waitRuleAssociationCreated env (awsToString assoc.Id)
            d.timeoutCreate).2 with _ | e
        · obtain ⟨rr, hrr, hcalls, -⟩ :=
            resourceRuleAssociationRead_total env { d with id := awsToString assoc.Id }
          simp only [resourceRuleAssociationCreate, ha, ho, hw, hrr] at h
          refine Or.inr ⟨awsToString assoc.Id, Or.inr ?_⟩
          cases h
          simp [hcalls]
        · simp only [resourceRuleAssociationCreate, ha, ho, hw] at h
          refine Or.inr ⟨awsToString assoc.Id, Or.inl ?_⟩
          cases h
          rfl
  · simp only [resourceRuleAssociationCreate, ha] at h
    cases h
    exact Or.inl rfl

/-- The possible call traces of the rule-association delete handler: the teardown
call alone, or the teardown call followed by the poller invocation. -/
theorem resourceRuleAssociationDelete_calls (env : R53Env) (d : RuleAssociationData) :
    (resourceRuleAssociationDelete env d).calls =
      [.disassociateResolverRule (disassociateInput d)] ∨
    (resourceRuleAssociationDelete env d).calls =
      [.disassociateResolverRule (disassociateInput d),
       .waitForState (ruleAssociationDeletedConf env d.id d.timeoutDelete)] := by
  rcases he : env.disassociateResolverRule (disassociateInput d) with _ | e
  · rcases hw : (waitRuleAssociationDeleted env d.id d.timeoutDelete).2 with _ | e
    · exact Or.inr (by simp [resourceRuleAssociationDelete, he, errsIsARNFE, hw])
    · exact Or.inr (by simp [resourceRuleAssociationDelete, he, errsIsARNFE, hw])
  · by_cases hr : goErrorAsRNFE e = true
    · exact Or.inl (by simp [resourceRuleAssociationDelete, he, errsIsARNFE, hr])
    · rcases hw : (waitRuleAssociationDeleted env d.id d.timeoutDelete).2 with _ | e2
      · exact Or.inl (by simp [resourceRuleAssociationDelete, he, errsIsARNFE, hr])
      · exact Or.inl (by simp [resourceRuleAssociationDelete, he, errsIsARNFE, hr])

/-- The possible call traces of the backup-replication create handler. -/
theorem backupReplicationCreate_calls (renv : RDSEnv) (rd : BackupReplicationData)
    (r : RDSResult)
    (h : resourceInstanceAutomatedBackupReplicationCreate renv rd = some r) :
    r.calls = [.startReplication (startReplicationInput rd)] ∨
    (∃ newId,
      r.calls = [.startReplication (startReplicationInput rd),
                 .waitCreated newId rd.timeoutCreate] ∨
      r.calls = [.startReplication (startReplicationInput rd),
                 .waitCreated newId rd.timeoutCreate, .findBackup newId]) := by
  rcases ha : renv.startReplication (startReplicationInput rd) with ⟨out, err⟩
  rcases err with _ | e
  · rcases out with _ | output
    · simp [resourceInstanceAutomatedBackupReplicationCreate, ha] at h
    · rcases ho : output.DBInstanceAutomatedBackup with _ | backup
      · simp [resourceInstanceAutomatedBackupReplicationCreate, ha, ho] at h
      · rcases hw : waitDBInstanceAutomatedBackupCreated renv
            (awsToString backup.DBInstanceAutomatedBackupsArn) rd.timeoutCreate
            with _ | e
        · rcases hrr : resourceInstanceAutomatedBackupReplicationRead renv
              { rd with id := awsToString backup.DBInstanceAutomatedBackupsArn }
              with _ | rr
          · simp [resourceInstanceAutomatedBackupReplicationCreate, ha, ho, hw, hrr] at h
          · have hcalls := backupReplicationRead_calls renv
              { rd with id := awsToString backup.DBInstanceAutomatedBackupsArn } rr hrr
            simp only [resourceInstanceAutomatedBackupReplicationCreate, ha, ho, hw,
              hrr] at h
            refine Or.inr ⟨awsToString backup.DBInstanceAutomatedBackupsArn, Or.inr ?_⟩
            cases h
            simp [hcalls]
        · simp only [resourceInstanceAutomatedBackupReplicationCreate, ha, ho, hw] at h
          refine Or.inr ⟨awsToString backup.DBInstanceAutomatedBackupsArn, Or.inl ?_⟩
          cases h
          rfl
  · simp only [resourceInstanceAutomatedBackupReplicationCreate, ha] at h
    cases h
    exact Or.inl rfl

/-- The possible call traces of the backup-replication delete handler: the lookup
alone, the lookup plus the teardown call, or those followed by the waiter invocation
with the create timeout. -/
theorem backupReplicationDelete_calls (renv : RDSEnv) (rd : BackupReplicationData)
    (r : RDSResult)
    (h : resourceInstanceAutomatedBackupReplicationDelete renv rd = some r) :
    r.calls = [.findBackup rd.id] ∨
    r.calls = [.findBackup rd.id, .stopReplication (stopReplicationInput rd)] ∨
    (∃ nc cr dbid,
      r.calls = [.findBackup rd.id, .stopReplication (stopReplicationInput rd),
                 .waitDeleted nc cr dbid rd.id rd.timeoutCreate]) := by
  rcases hf : FindDBInstanceAutomatedBackupByARN renv rd.id with ⟨found, err⟩
  by_cases hn : tfNotFound err = true
  · simp only [resourceInstanceAutomatedBackupReplicationDelete, hf, hn, if_true] at h
    cases h
    exact Or.inl rfl
  · rcases err with _ | e
    · rcases found with _ | backup
      · simp [resourceInstanceAutomatedBackupReplicationDelete, hf, hn] at h
      · rcases hp : arnParse (awsToString backup.DBInstanceArn) with e | a
        · simp only [resourceInstanceAutomatedBackupReplicationDelete, hf, hn, hp,
            Bool.false_eq_true, if_false] at h
          cases h
          exact Or.inl rfl
        · rcases hs : renv.stopReplication (stopReplicationInput rd) with _ | e
          · rcases hw : waitDBInstanceAutomatedBackupDeleted renv
                (if a.region ≠ renv.region then a.region else renv.region)
                (awsToString backup.DBInstanceIdentifier) rd.id rd.timeoutCreate
                with _ | e
            · simp only [resourceInstanceAutomatedBackupReplicationDelete, hf, hn, hp,
                hs, hw, Bool.false_eq_true, if_false] at h
              cases h
              exact Or.inr (Or.inr ⟨_, _, _, rfl⟩)
            · simp only [resourceInstanceAutomatedBackupReplicationDelete, hf, hn, hp,
                hs, hw, Bool.false_eq_true, if_false] at h
              cases h
              exact Or.inr (Or.inr ⟨_, _, _, rfl⟩)
          · simp only [resourceInstanceAutomatedBackupReplicationDelete, hf, hn, hp,
              hs, Bool.false_eq_true, if_false] at h
            cases h
            exact Or.inr (Or.inl rfl)
    · simp only [resourceInstanceAutomatedBackupReplicationDelete, hf, hn,
        Bool.false_eq_true, if_false] at h
      cases h
      exact Or.inl rfl

/-! ### Concrete sample data for witnesses and counterexamples -/

/-- A sample remote rule association. -/
def assocW : ResolverRuleAssociation :=
  { Id := some "rslvr-rrassoc-123"
    Name := some "example"
    ResolverRuleId := some "rslvr-rr-1"
    VPCId := some "vpc-1"
    Status := ResolverRuleAssociationStatusComplete
    StatusMessage := some "finished" }

/-- A remote environment where every Route53 Resolver call succeeds. -/
def envOk : R53Env :=
  { associateResolverRule := fun _ =>
      (some { ResolverRuleAssociation := some assocW }, none)
    getResolverRuleAssociation := fun _ =>
      (some { ResolverRuleAssociation := some assocW }, none)
    disassociateResolverRule := fun _ => none
    waitForState := fun _ => (some assocW, none) }

/-- A sample `ResourceNotFoundException`. -/
def rnfe : GoErr := .resourceNotFoundException "does not exist"

/-- A remote environment where every Route53 Resolver call reports not found. -/
def envNotFound : R53Env :=
  { associateResolverRule := fun _ => (none, some rnfe)
    getResolverRuleAssociation := fun _ => (none, some rnfe)
    disassociateResolverRule := fun _ => some rnfe
    waitForState := fun _ => (none, none) }

/-- Sample local state of a rule association flagged as newly created. -/
def dNew : RuleAssociationData :=
  { id := "rslvr-rrassoc-1", name := "example", resolver_rule_id := "rslvr-rr-1",
    vpc_id := "vpc-1", isNew := true, timeoutCreate := 10 * minute,
    timeoutDelete := 10 * minute }

/-- Sample local state of an existing (not new) rule association. -/
def dOld : RuleAssociationData := { dNew with isNew := false }

/-- A sample remote automated backup whose source database lives in another region
than the provider's client. -/
def backupW : DBInstanceAutomatedBackup :=
  { DBInstanceIdentifier := some "mydb"
    DBInstanceArn := some "arn:aws:rds:us-east-1:123456789012:db:mydb"
    DBInstanceAutomatedBackupsArn :=
      some "arn:aws:rds:us-west-2:123456789012:auto-backup:ab-1"
    KmsKeyId := some "arn:aws:kms:us-west-2:123456789012:key/k1"
    BackupRetentionPeriod := some 7 }

/-- A remote environment where every RDS call succeeds. -/
def rdsEnvOk : RDSEnv :=
  { region := "us-west-2"
    startReplication := fun _ =>
      (some { DBInstanceAutomatedBackup := some backupW }, none)
    stopReplication := fun _ => none
    findBackupByARN := fun _ => (some backupW, none)
    waitBackupCreated := fun _ _ => none
    waitBackupDeleted := fun _ _ _ _ => none }

/-- A remote environment where the RDS lookup reports the not-found sentinel. -/
def rdsEnvNotFound : RDSEnv :=
  { rdsEnvOk with
    findBackupByARN := fun _ => (none, some (.notFoundError (some rnfe) none)) }

/-- Sample local state of a backup replication flagged as newly created; its create
and delete timeouts deliberately differ. -/
def rdW : BackupReplicationData :=
  { id := "arn:aws:rds:us-west-2:123456789012:auto-backup:ab-1"
    kms_key_id := "arn:aws:kms:us-west-2:123456789012:key/k1"
    retention_period := 14
    source_db_instance_arn := "arn:aws:rds:us-east-1:123456789012:db:mydb"
    isNew := true, timeoutCreate := 20 * minute, timeoutDelete := 30 * minute }

/-- Sample local state of an existing (not new) backup replication. -/
def rdOld : BackupReplicationData := { rdW with isNew := false }

/-! ### Claims -/

/-- C1, counterexample: the claim says that whenever the read handler's lookup reports
the remote object as not found, the handler clears local state and returns without
error.  With the lookup reporting not found but the resource flagged as newly created
(`d.IsNewResource()`), the rule-association read handler instead returns an error and
keeps the resource id. -/
theorem readHandler_newResource_notFound_cex :
    tfNotFound (findResolverRuleAssociationByID envNotFound dNew.id).2 = true ∧
    (resourceRuleAssociationRead envNotFound dNew).map
      (fun r => (r.diags.isSome, r.d.id)) = some (true, "rslvr-rrassoc-1") :=
  ⟨rfl, rfl⟩

/-- C1 (amended): for both resources, when the lookup reports the remote object as not
found and the resource is not newly created, the read handler clears the resource id
and returns without error; during a fresh create (`IsNewResource` true) a not-found
lookup is instead surfaced as an error with the id kept; on a successful lookup the
remote fields are copied into local state verbatim. -/
theorem readHandlers_refresh_state (env : R53Env) (renv : RDSEnv)
    (d : RuleAssociationData) (rd : BackupReplicationData) :
    (d.isNew = false →
      tfNotFound (findResolverRuleAssociationByID env d.id).2 = true →
      resourceRuleAssociationRead env d =
        some { diags := none, d := { d with id := "" },
               calls := [.getResolverRuleAssociation (getInput d.id)] }) ∧
    (∀ a, findResolverRuleAssociationByID env d.id = (some a, none) →
      resourceRuleAssociationRead env d =
        some { diags := none,
               d := { d with
                      name := awsToString a.Name,
                      resolver_rule_id := awsToString a.ResolverRuleId,
                      vpc_id := awsToString a.VPCId },
               calls := [.getResolverRuleAssociation (getInput d.id)] }) ∧
    (d.isNew = true →
      tfNotFound (findResolverRuleAssociationByID env d.id).2 = true →
      (resourceRuleAssociationRead env d).map (fun r => (r.diags.isSome, r.d.id)) =
        some (true, d.id)) ∧
    (rd.isNew = false →
      tfNotFound (FindDBInstanceAutomatedBackupByARN renv rd.id).2 = true →
      resourceInstanceAutomatedBackupReplicationRead renv rd =
        some { diags := none, d := { rd with id := "" },
               calls := [.findBackup rd.id] }) ∧
    (rd.isNew = true →
      tfNotFound (FindDBInstanceAutomatedBackupByARN renv rd.id).2 = true →
      (resourceInstanceAutomatedBackupReplicationRead renv rd).map
          (fun r => (r.diags.isSome, r.d.id)) =
        some (true, rd.id)) ∧
    (∀ b, FindDBInstanceAutomatedBackupByARN renv rd.id = (some b, none) →
      resourceInstanceAutomatedBackupReplicationRead renv rd =
        some { diags := none,
               d := { rd with
                      kms_key_id := awsToString b.KmsKeyId,
                      retention_period := b.BackupRetentionPeriod.getD 0,
                      source_db_instance_arn := awsToString b.DBInstanceArn },
               calls := [.findBackup rd.id] }) := by
  refine ⟨?_, ?_, ?_, ?_, ?_, ?_⟩
  · intro h1 h2
    rcases hf : findResolverRuleAssociationByID env d.id with ⟨found, err⟩
    rw [hf] at h2
    simp [resourceRuleAssociationRead, hf, h1, h2]
  · intro a hfa
    simp [resourceRuleAssociationRead, hfa, tfNotFound]
  · intro h1 h2
    rcases hf : findResolverRuleAssociationByID env d.id with ⟨found, err⟩
    rw [hf] at h2
    rcases err with _ | e
    · simp [tfNotFound] at h2
    · simp [resourceRuleAssociationRead, hf, h1, h2]
  · intro h1 h2
    rcases hf : FindDBInstanceAutomatedBackupByARN renv rd.id with ⟨found, err⟩
    rw [hf] at h2
    simp [resourceInstanceAutomatedBackupReplicationRead, hf, h1, h2]
  · intro h1 h2
    rcases hf : FindDBInstanceAutomatedBackupByARN renv rd.id with ⟨found, err⟩
    rw [hf] at h2
    rcases err with _ | e
    · simp [tfNotFound] at h2
    · simp [resourceInstanceAutomatedBackupReplicationRead, hf, h1, h2]
  · intro b hfb
    simp [resourceInstanceAutomatedBackupReplicationRead, hfb, tfNotFound]

/-- C1, witness: the amended statement applied to concrete environments, for the
clear-on-not-found branch of the rule association and the copy-fields branch of the
backup replication. -/
theorem readHandlers_refresh_state_witness :
    resourceRuleAssociationRead envNotFound dOld =
      some { diags := none, d := { dOld with id := "" },
             calls := [.getResolverRuleAssociation (getInput dOld.id)] } ∧
    resourceInstanceAutomatedBackupReplicationRead rdsEnvOk rdOld =
      some { diags := none,
             d := { rdOld with
                    kms_key_id := awsToString backupW.KmsKeyId,
                    retention_period := backupW.BackupRetentionPeriod.getD 0,
                    source_db_instance_arn := awsToString backupW.DBInstanceArn },
             calls := [.findBackup rdOld.id] } :=
  ⟨(readHandlers_refresh_state envNotFound rdsEnvOk dOld rdOld).1 rfl rfl,
   (readHandlers_refresh_state envNotFound rdsEnvOk dOld rdOld).2.2.2.2.2 backupW rfl⟩

/-- A remote environment where the RDS start-replication call fails. -/
def rdsEnvStartFail : RDSEnv :=
  { rdsEnvOk with startReplication := fun _ => (none, some rnfe) }

/-- C2: both delete handlers tolerate a not-found condition as success: if the
teardown SDK call (rule association) or the preceding lookup by ARN (RDS) reports the
remote object as absent, the handler returns success without error, leaves the state
unchanged, and attempts no further external calls. -/
theorem deleteHandlers_tolerate_notFound (env : R53Env) (renv : RDSEnv)
    (d : RuleAssociationData) (rd : BackupReplicationData) :
    (∀ e, env.disassociateResolverRule (disassociateInput d) = some e →
      goErrorAsRNFE e = true →
      resourceRuleAssociationDelete env d =
        { diags := none, d := d,
          calls := [.disassociateResolverRule (disassociateInput d)] }) ∧
    (tfNotFound (FindDBInstanceAutomatedBackupByARN renv rd.id).2 = true →
      resourceInstanceAutomatedBackupReplicationDelete renv rd =
        some { diags := none, d := rd, calls := [.findBackup rd.id] }) := by
  constructor
  · intro e he hr
    simp [resourceRuleAssociationDelete, he, errsIsARNFE, hr]
  · intro h2
    rcases hf : FindDBInstanceAutomatedBackupByARN renv rd.id with ⟨found, err⟩
    rw [hf] at h2
    simp [resourceInstanceAutomatedBackupReplicationDelete, hf, h2]

/-- C2, witness: both delete handlers applied to concrete not-found environments. -/
theorem deleteHandlers_tolerate_notFound_witness :
    resourceRuleAssociationDelete envNotFound dOld =
      { diags := none, d := dOld,
        calls := [.disassociateResolverRule (disassociateInput dOld)] } ∧
    resourceInstanceAutomatedBackupReplicationDelete rdsEnvNotFound rdOld =
      some { diags := none, d := rdOld, calls := [.findBackup rdOld.id] } :=
  ⟨(deleteHandlers_tolerate_notFound envNotFound rdsEnvNotFound dOld rdOld).1 rnfe rfl rfl,
   (deleteHandlers_tolerate_notFound envNotFound rdsEnvNotFound dOld rdOld).2 rfl⟩

/-- C8: if the initial SDK create call fails, each create handler returns the wrapped
error with the local state unchanged (in particular the resource id is not set) and
attempts no further external calls. -/
theorem createHandlers_error_atomicity (env : R53Env) (renv : RDSEnv)
    (d : RuleAssociationData) (rd : BackupReplicationData) :
    (∀ out e, env.associateResolverRule (associateInput d) = (out, some e) →
      resourceRuleAssociationCreate env d =
        some { diags := some (.wrapped "creating Route53 Resolver Rule Association" e),
               d := d, calls := [.associateResolverRule (associateInput d)] }) ∧
    (∀ out e, renv.startReplication (startReplicationInput rd) = (out, some e) →
      resourceInstanceAutomatedBackupReplicationCreate renv rd =
        some { diags :=
                 some (.wrapped "error starting RDS instance automated backup replication" e),
               d := rd, calls := [.startReplication (startReplicationInput rd)] }) := by
  constructor
  · intro out e h
    simp [resourceRuleAssociationCreate, h]
  · intro out e h
    simp [resourceInstanceAutomatedBackupReplicationCreate, h]

/-- C8, witness: both create handlers applied to environments whose create call
fails. -/
theorem createHandlers_error_atomicity_witness :
    resourceRuleAssociationCreate envNotFound dNew =
      some { diags := some (.wrapped "creating Route53 Resolver Rule Association" rnfe),
             d := dNew, calls := [.associateResolverRule (associateInput dNew)] } ∧
    resourceInstanceAutomatedBackupReplicationCreate rdsEnvStartFail rdW =
      some { diags :=
               some (.wrapped "error starting RDS instance automated backup replication" rnfe),
             d := rdW, calls := [.startReplication (startReplicationInput rdW)] } :=
  ⟨(createHandlers_error_atomicity envNotFound rdsEnvStartFail dNew rdW).1 none rnfe rfl,
   (createHandlers_error_atomicity envNotFound rdsEnvStartFail dNew rdW).2 none rnfe rfl⟩

/-- A remote environment whose teardown call fails with the framework sentinel
wrapping a `ResourceNotFoundException`. -/
def envSentinel : R53Env :=
  { envNotFound with
    disassociateResolverRule := fun _ => some (.notFoundError (some rnfe) none) }

/-- A remote environment whose lookup returns a non-nil output embedding a nil
association. -/
def envEmpty : R53Env :=
  { envOk with
    getResolverRuleAssociation := fun _ =>
      (some { ResolverRuleAssociation := none }, none) }

/-- A remote environment whose poller times out while the last refresh produced the
sample association. -/
def envTimeout : R53Env :=
  { envOk with waitForState := fun _ => (some assocW, some (.timeoutError none)) }

/-- C4: a `ResourceNotFoundException` from the SDK lookup is translated into the
framework's `retry.NotFoundError` sentinel carrying the last error and the request;
every other SDK error passes through unchanged; the read path treats the sentinel as
already absent (clearing state without error), and the delete paths treat a not-found
condition — including the sentinel, which unwraps to the exception — as already
absent. -/
theorem findByID_notFound_sentinel (env : R53Env) (renv : RDSEnv) (id : String)
    (d : RuleAssociationData) (rd : BackupReplicationData) :
    (∀ out e, env.getResolverRuleAssociation (getInput id) = (out, some e) →
      goErrorAsRNFE e = true →
      findResolverRuleAssociationByID env id =
        (none, some (.notFoundError (some e)
          (some (.getResolverRuleAssociation (getInput id)))))) ∧
    (∀ out e, env.getResolverRuleAssociation (getInput id) = (out, some e) →
      goErrorAsRNFE e = false →
      findResolverRuleAssociationByID env id = (none, some e)) ∧
    (d.isNew = false →
      tfNotFound (findResolverRuleAssociationByID env d.id).2 = true →
      (resourceRuleAssociationRead env d).map (fun r => (r.diags, r.d.id)) =
        some (none, "")) ∧
    (∀ m req, env.disassociateResolverRule (disassociateInput d) =
        some (.notFoundError (some (.resourceNotFoundException m)) req) →
      resourceRuleAssociationDelete env d =
        { diags := none, d := d,
          calls := [.disassociateResolverRule (disassociateInput d)] }) ∧
    (tfNotFound (FindDBInstanceAutomatedBackupByARN renv rd.id).2 = true →
      (resourceInstanceAutomatedBackupReplicationDelete renv rd).map (fun r => r.diags) =
        some none) := by
  refine ⟨?_, ?_, ?_, ?_, ?_⟩
  · intro out e h hr
    simp [findResolverRuleAssociationByID, h, hr]
  · intro out e h hr
    simp [findResolverRuleAssociationByID, h, hr]
  · intro h1 h2
    rcases hf : findResolverRuleAssociationByID env d.id with ⟨found, err⟩
    rw [hf] at h2
    simp [resourceRuleAssociationRead, hf, h1, h2]
  · intro m req h
    simp [resourceRuleAssociationDelete, h, errsIsARNFE, goErrorAsRNFE]
  · intro h2
    rcases hf : FindDBInstanceAutomatedBackupByARN renv rd.id with ⟨found, err⟩
    rw [hf] at h2
    simp [resourceInstanceAutomatedBackupReplicationDelete, hf, h2]

/-- C4, witness: the sentinel built from a concrete exception, and a delete handler
receiving the sentinel and succeeding. -/
theorem findByID_notFound_sentinel_witness :
    findResolverRuleAssociationByID envNotFound "rslvr-rrassoc-1" =
      (none, some (.notFoundError (some rnfe)
        (some (.getResolverRuleAssociation (getInput "rslvr-rrassoc-1"))))) ∧
    resourceRuleAssociationDelete envSentinel dOld =
      { diags := none, d := dOld,
        calls := [.disassociateResolverRule (disassociateInput dOld)] } :=
  ⟨(findByID_notFound_sentinel envNotFound rdsEnvOk "rslvr-rrassoc-1" dOld rdOld).1
      none rnfe rfl rfl,
   (findByID_notFound_sentinel envSentinel rdsEnvOk "rslvr-rrassoc-1" dOld rdOld).2.2.2.1
      "does not exist" none rfl⟩

/-- C9: `findResolverRuleAssociationByID` never returns both a nil association and a
nil error: every outcome is either an association with nil error or nil with a
non-nil error; in particular a nil SDK output, or an output embedding a nil
association, yields an `EmptyResultError` rather than a nil result with nil error. -/
theorem findByID_never_nil_nil (env : R53Env) (id : String) :
    ((∃ a, findResolverRuleAssociationByID env id = (some a, none)) ∨
     (∃ e, findResolverRuleAssociationByID env id = (none, some e))) ∧
    (env.getResolverRuleAssociation (getInput id) = (none, none) →
      findResolverRuleAssociationByID env id =
        (none, some (.emptyResultError
          (some (.getResolverRuleAssociation (getInput id)))))) ∧
    (∀ out, env.getResolverRuleAssociation (getInput id) = (some out, none) →
      out.ResolverRuleAssociation = none →
      findResolverRuleAssociationByID env id =
        (none, some (.emptyResultError
          (some (.getResolverRuleAssociation (getInput id)))))) := by
  refine ⟨findResolverRuleAssociationByID_shape env id, ?_, ?_⟩
  · intro h
    simp [findResolverRuleAssociationByID, h]
  · intro out h ho
    simp [findResolverRuleAssociationByID, h, ho]

/-- C9, witness: a non-nil SDK output embedding a nil association yields the
`EmptyResultError`. -/
theorem findByID_never_nil_nil_witness :
    findResolverRuleAssociationByID envEmpty "rslvr-rrassoc-1" =
      (none, some (.emptyResultError
        (some (.getResolverRuleAssociation (getInput "rslvr-rrassoc-1"))))) :=
  (findByID_never_nil_nil envEmpty "rslvr-rrassoc-1").2.2
    { ResolverRuleAssociation := none } rfl rfl

/-- C6: every invocation of the status-refresh function returns exactly one of three
shapes: the object with its status string and nil error on a successful lookup; nil
object, empty status and nil error when the lookup reports not found; or nil object,
empty status and the error when the lookup fails otherwise — and it never hits the nil
dereference. -/
theorem statusRuleAssociation_shapes (env : R53Env) (id : String) :
    (∀ a, findResolverRuleAssociationByID env id = (some a, none) →
      statusRuleAssociation env id = some (some a, a.Status, none)) ∧
    (∀ e, findResolverRuleAssociationByID env id = (none, some e) →
      tfNotFound (some e) = true →
      statusRuleAssociation env id = some (none, "", none)) ∧
    (∀ e, findResolverRuleAssociationByID env id = (none, some e) →
      tfNotFound (some e) = false →
      statusRuleAssociation env id = some (none, "", some e)) ∧
    (statusRuleAssociation env id).isSome = true := by
  refine ⟨?_, ?_, ?_, ?_⟩
  · intro a h
    simp [statusRuleAssociation, h, tfNotFound]
  · intro e h hn
    simp [statusRuleAssociation, h, hn]
  · intro e h hn
    simp [statusRuleAssociation, h, hn]
  · rcases findResolverRuleAssociationByID_shape env id with ⟨a, ha⟩ | ⟨e, he⟩
    · simp [statusRuleAssociation, ha, tfNotFound]
    · by_cases hn : tfNotFound (some e) = true
      · simp [statusRuleAssociation, he, hn]
      · simp [statusRuleAssociation, he, hn]

/-- C6, witness: the success shape on a found association and the not-found shape on
an absent one. -/
theorem statusRuleAssociation_shapes_witness :
    statusRuleAssociation envOk "rslvr-rrassoc-1" =
      some (some assocW, assocW.Status, none) ∧
    statusRuleAssociation envNotFound "rslvr-rrassoc-1" = some (none, "", none) :=
  ⟨(statusRuleAssociation_shapes envOk "rslvr-rrassoc-1").1 assocW rfl,
   (statusRuleAssociation_shapes envNotFound "rslvr-rrassoc-1").2.1
      (.notFoundError (some rnfe)
        (some (.getResolverRuleAssociation (getInput "rslvr-rrassoc-1")))) rfl rfl⟩

/-- C5: for both waiters, when the poll ends with the last refresh having produced a
rule association, the object's status message is attached to the returned error via
`SetLastError`; in particular a poller timeout is returned carrying the status message
as its last error. -/
theorem waiters_attach_statusMessage (env : R53Env) (id : String) (timeout : Nat) :
    (∀ output e,
      env.waitForState (ruleAssociationCreatedConf env id timeout) =
        (some output, some e) →
      waitRuleAssociationCreated env id timeout =
        (some output,
         setLastError (some e) (.errorString (awsToString output.StatusMessage))) ∧
      (e = .timeoutError none →
        waitRuleAssociationCreated env id timeout =
          (some output, some (.timeoutError
            (some (.errorString (awsToString output.StatusMessage))))))) ∧
    (∀ output e,
      env.waitForState (ruleAssociationDeletedConf env id timeout) =
        (some output, some e) →
      waitRuleAssociationDeleted env id timeout =
        (some output,
         setLastError (some e) (.errorString (awsToString output.StatusMessage))) ∧
      (e = .timeoutError none →
        waitRuleAssociationDeleted env id timeout =
          (some output, some (.timeoutError
            (some (.errorString (awsToString output.StatusMessage))))))) := by
  constructor
  · intro output e h
    refine ⟨?_, ?_⟩
    · simp [waitRuleAssociationCreated, h]
    · intro he
      subst he
      simp [waitRuleAssociationCreated, h, setLastError]
  · intro output e h
    refine ⟨?_, ?_⟩
    · simp [waitRuleAssociationDeleted, h]
    · intro he
      subst he
      simp [waitRuleAssociationDeleted, h, setLastError]

/-- C5, witness: a concrete poller timeout with the sample association as the last
refresh result is surfaced with the association's status message attached. -/
theorem waiters_attach_statusMessage_witness :
    waitRuleAssociationCreated envTimeout "rslvr-rrassoc-1" (10 * minute) =
      (some assocW, some (.timeoutError
        (some (.errorString (awsToString assocW.StatusMessage))))) :=
  ((waiters_attach_statusMessage envTimeout "rslvr-rrassoc-1" (10 * minute)).1
    assocW (.timeoutError none) rfl).2 rfl

/-- C3: each create handler builds its request from the configuration fields (the
optional name, resp. kms key id, only when set), issues exactly one SDK create call,
stores the identifier returned by that call (association id, resp. backup ARN) as the
resource id, and then invokes the generic poller: for the rule association with
pending status CREATING, target status COMPLETE, a 10-second delay, a 5-second
minimum interval and the caller-supplied timeout; for the backup replication through
the repository's waiter with the stored id and the caller-supplied create timeout. -/
theorem createHandlers_request_id_wait (env : R53Env) (renv : RDSEnv)
    (d : RuleAssociationData) (rd : BackupReplicationData)
    (output : AssociateResolverRuleOutput) (assoc : ResolverRuleAssociation)
    (rout : StartDBInstanceAutomatedBackupsReplicationOutput)
    (backup : DBInstanceAutomatedBackup) :
    (env.associateResolverRule (associateInput d) = (some output, none) →
     output.ResolverRuleAssociation = some assoc →
     d.isNew = true →
      associateInput d =
        { Name := if d.name = "" then none else some d.name
          ResolverRuleId := some d.resolver_rule_id
          VPCId := some d.vpc_id } ∧
      ((ruleAssociationCreatedConf env (awsToString assoc.Id) d.timeoutCreate).Pending =
          [ResolverRuleAssociationStatusCreating] ∧
       (ruleAssociationCreatedConf env (awsToString assoc.Id) d.timeoutCreate).Target =
          [ResolverRuleAssociationStatusComplete] ∧
       (ruleAssociationCreatedConf env (awsToString assoc.Id) d.timeoutCreate).Timeout =
          d.timeoutCreate ∧
       (ruleAssociationCreatedConf env (awsToString assoc.Id) d.timeoutCreate).Delay =
          10 * second ∧
       (ruleAssociationCreatedConf env (awsToString assoc.Id) d.timeoutCreate).MinTimeout =
          5 * second) ∧
      (resourceRuleAssociationCreate env d).map (fun r => r.calls.head?) =
        some (some (.associateResolverRule (associateInput d))) ∧
      (resourceRuleAssociationCreate env d).map (fun r => r53AssociateCount r.calls) =
        some 1 ∧
      (resourceRuleAssociationCreate env d).map (fun r => (r.calls.drop 1).head?) =
        some (some (.waitForState
          (ruleAssociationCreatedConf env (awsToString assoc.Id) d.timeoutCreate))) ∧
      (resourceRuleAssociationCreate env d).map (fun r => r.d.id) =
        some (awsToString assoc.Id)) ∧
    (renv.startReplication (startReplicationInput rd) = (some rout, none) →
     rout.DBInstanceAutomatedBackup = some backup →
     rd.isNew = true →
     (∀ s, (renv.findBackupByARN s).1.isSome ∨ (renv.findBackupByARN s).2.isSome) →
      startReplicationInput rd =
        { BackupRetentionPeriod := some rd.retention_period
          KmsKeyId := if rd.kms_key_id = "" then none else some rd.kms_key_id
          SourceDBInstanceArn := some rd.source_db_instance_arn } ∧
      (resourceInstanceAutomatedBackupReplicationCreate renv rd).map
          (fun r => r.calls.head?) =
        some (some (.startReplication (startReplicationInput rd))) ∧
      (resourceInstanceAutomatedBackupReplicationCreate renv rd).map
          (fun r => rdsStartCount r.calls) = some 1 ∧
      (resourceInstanceAutomatedBackupReplicationCreate renv rd).map
          (fun r => (r.calls.drop 1).head?) =
        some (some (.waitCreated (awsToString backup.DBInstanceAutomatedBackupsArn)
          rd.timeoutCreate)) ∧
      (resourceInstanceAutomatedBackupReplicationCreate renv rd).map (fun r => r.d.id) =
        some (awsToString backup.DBInstanceAutomatedBackupsArn)) := by
  constructor
  · intro h1 h2 h3
    refine ⟨rfl, ⟨rfl, rfl, rfl, rfl, rfl⟩, ?_⟩
    rcases hw : (waitRuleAssociationCreated env (awsToString assoc.Id)
        d.timeoutCreate).2 with _ | e
    · obtain ⟨rr, hrr, hcalls, hid⟩ :=
        resourceRuleAssociationRead_total env { d with id := awsToString assoc.Id }
      have hcr : resourceRuleAssociationCreate env d =
          some { diags := rr.diags, d := rr.d,
                 calls := [.associateResolverRule (associateInput d),
                           .waitForState (ruleAssociationCreatedConf env
                             (awsToString assoc.Id) d.timeoutCreate)] ++ rr.calls } := by
        simp [resourceRuleAssociationCreate, h1, h2, hw, hrr]
      rw [hcr]
      refine ⟨by simp, ?_, by simp, ?_⟩
      · simp [r53AssociateCount, hcalls]
      · simp [hid h3]
    · have hcr : resourceRuleAssociationCreate env d =
          some { diags :=
                   some (.wrapped "waiting for Route53 Resolver Rule Association create" e),
                 d := { d with id := awsToString assoc.Id },
                 calls := [.associateResolverRule (associateInput d),
                           .waitForState (ruleAssociationCreatedConf env
                             (awsToString assoc.Id) d.timeoutCreate)] } := by
        simp [resourceRuleAssociationCreate, h1, h2, hw]
      rw [hcr]
      exact ⟨rfl, rfl, rfl, rfl⟩
  · intro h1 h2 h3 hfb
    refine ⟨rfl, ?_⟩
    rcases hw : waitDBInstanceAutomatedBackupCreated renv
        (awsToString backup.DBInstanceAutomatedBackupsArn) rd.timeoutCreate with _ | e
    · obtain ⟨rr, hrr, hcalls, hid⟩ := backupReplicationRead_total renv
        { rd with id := awsToString backup.DBInstanceAutomatedBackupsArn } hfb
      have hcr : resourceInstanceAutomatedBackupReplicationCreate renv rd =
          some { diags := rr.diags, d := rr.d,
                 calls := [.startReplication (startReplicationInput rd),
                           .waitCreated (awsToString backup.DBInstanceAutomatedBackupsArn)
                             rd.timeoutCreate] ++ rr.calls } := by
        simp [resourceInstanceAutomatedBackupReplicationCreate, h1, h2, hw, hrr]
      rw [hcr]
      refine ⟨by simp, ?_, by simp, ?_⟩
      · simp [rdsStartCount, hcalls]
      · simp [hid h3]
    · have hcr : resourceInstanceAutomatedBackupReplicationCreate renv rd =
          some { diags :=
                   some (.wrapped "error waiting for DB instance automated backup create" e),
                 d := { rd with id := awsToString backup.DBInstanceAutomatedBackupsArn },
                 calls := [.startReplication (startReplicationInput rd),
                           .waitCreated (awsToString backup.DBInstanceAutomatedBackupsArn)
                             rd.timeoutCreate] } := by
        simp [resourceInstanceAutomatedBackupReplicationCreate, h1, h2, hw]
      rw [hcr]
      exact ⟨rfl, rfl, rfl, rfl⟩

/-- C3, witness: both create handlers in a fully successful environment store the
identifier returned by their single create call. -/
theorem createHandlers_request_id_wait_witness :
    (resourceRuleAssociationCreate envOk dNew).map (fun r => r53AssociateCount r.calls) =
      some 1 ∧
    (resourceRuleAssociationCreate envOk dNew).map (fun r => r.d.id) =
      some (awsToString assocW.Id) ∧
    (resourceInstanceAutomatedBackupReplicationCreate rdsEnvOk rdW).map
        (fun r => rdsStartCount r.calls) = some 1 ∧
    (resourceInstanceAutomatedBackupReplicationCreate rdsEnvOk rdW).map
        (fun r => r.d.id) =
      some (awsToString backupW.DBInstanceAutomatedBackupsArn) := by
  have h1 := (createHandlers_request_id_wait envOk rdsEnvOk dNew rdW
      { ResolverRuleAssociation := some assocW } assocW
      { DBInstanceAutomatedBackup := some backupW } backupW).1 rfl rfl rfl
  have h2 := (createHandlers_request_id_wait envOk rdsEnvOk dNew rdW
      { ResolverRuleAssociation := some assocW } assocW
      { DBInstanceAutomatedBackup := some backupW } backupW).2 rfl rfl rfl
      (fun _ => Or.inl rfl)
  exact ⟨h1.2.2.2.1, h1.2.2.2.2.2, h2.2.2.1, h2.2.2.2.2⟩

/-- C7: the rule association's schema defaults both its create and delete timeouts to
ten minutes; each rule-association handler blocks at most once, and only through the
framework poller, whose configuration carries a 10-second delay, a 5-second minimum
interval and the caller-supplied timeout for the respective lifecycle step; the read
handlers never block; and each RDS handler blocks at most once, through the
repository's waiters. -/
theorem handlers_block_only_in_poller :
    resourceRuleAssociation.Timeouts.Create = some (10 * minute) ∧
    resourceRuleAssociation.Timeouts.Delete = some (10 * minute) ∧
    (∀ env d r, resourceRuleAssociationCreate env d = some r →
      (r53WaitConfs r.calls).length ≤ 1 ∧
      ∀ conf ∈ r53WaitConfs r.calls,
        conf.Delay = 10 * second ∧ conf.MinTimeout = 5 * second ∧
        conf.Timeout = d.timeoutCreate) ∧
    (∀ env d r, resourceRuleAssociationRead env d = some r →
      r53WaitConfs r.calls = []) ∧
    (∀ env d,
      (r53WaitConfs (resourceRuleAssociationDelete env d).calls).length ≤ 1 ∧
      ∀ conf ∈ r53WaitConfs (resourceRuleAssociationDelete env d).calls,
        conf.Delay = 10 * second ∧ conf.MinTimeout = 5 * second ∧
        conf.Timeout = d.timeoutDelete) ∧
    (∀ renv rd r, resourceInstanceAutomatedBackupReplicationCreate renv rd = some r →
      rdsWaitCount r.calls ≤ 1) ∧
    (∀ renv rd r, resourceInstanceAutomatedBackupReplicationRead renv rd = some r →
      rdsWaitCount r.calls = 0) ∧
    (∀ renv rd r, resourceInstanceAutomatedBackupReplicationDelete renv rd = some r →
      rdsWaitCount r.calls ≤ 1) := by
  refine ⟨rfl, rfl, ?_, ?_, ?_, ?_, ?_, ?_⟩
  · intro env d r h
    rcases resourceRuleAssociationCreate_calls env d r h with h1 | ⟨newId, h1 | h1⟩ <;>
      rw [h1]
    · exact ⟨by simp [r53WaitConfs],
             by intro conf hconf; simp [r53WaitConfs] at hconf⟩
    · refine ⟨by simp [r53WaitConfs], ?_⟩
      intro conf hconf
      simp [r53WaitConfs] at hconf
      subst hconf
      exact ⟨rfl, rfl, rfl⟩
    · refine ⟨by simp [r53WaitConfs], ?_⟩
      intro conf hconf
      simp [r53WaitConfs] at hconf
      subst hconf
      exact ⟨rfl, rfl, rfl⟩
  · intro env d r h
    rw [resourceRuleAssociationRead_calls env d r h]
    rfl
  · intro env d
    rcases resourceRuleAssociationDelete_calls env d with h1 | h1 <;> rw [h1]
    · exact ⟨by simp [r53WaitConfs],
             by intro conf hconf; simp [r53WaitConfs] at hconf⟩
    · refine ⟨by simp [r53WaitConfs], ?_⟩
      intro conf hconf
      simp [r53WaitConfs] at hconf
      subst hconf
      exact ⟨rfl, rfl, rfl⟩
  · intro renv rd r h
    rcases backupReplicationCreate_calls renv rd r h with h1 | ⟨newId, h1 | h1⟩ <;>
      simp [h1, rdsWaitCount]
  · intro renv rd r h
    rw [backupReplicationRead_calls renv rd r h]
    rfl
  · intro renv rd r h
    rcases backupReplicationDelete_calls renv rd r h with h1 | h1 | ⟨nc, cr, dbid, h1⟩ <;>
      simp [h1, rdsWaitCount]

/-- The result of the rule-association read handler on the sample environment. -/
def readResW : R53Result :=
  { diags := none
    d := { dOld with
           name := awsToString assocW.Name,
           resolver_rule_id := awsToString assocW.ResolverRuleId,
           vpc_id := awsToString assocW.VPCId }
    calls := [.getResolverRuleAssociation (getInput dOld.id)] }

/-- C7, witness: the schema default, a read trace without poller invocations, and a
delete trace with at most one. -/
theorem handlers_block_only_in_poller_witness :
    resourceRuleAssociation.Timeouts.Create = some (10 * minute) ∧
    r53WaitConfs readResW.calls = [] ∧
    (r53WaitConfs (resourceRuleAssociationDelete envOk dOld).calls).length ≤ 1 :=
  ⟨handlers_block_only_in_poller.1,
   handlers_block_only_in_poller.2.2.2.1 envOk dOld readResW rfl,
   (handlers_block_only_in_poller.2.2.2.2.1 envOk dOld).1⟩

/-- C10: the RDS backup-replication delete handler waits for deletion using the
resource's create timeout (`d.Timeout(schema.TimeoutCreate)`), not a delete timeout,
and when the parsed source database ARN names a region different from the provider
client's region, it performs that wait on a new client connected to the source
region. -/
theorem rdsDelete_wait_createTimeout_sourceRegion (renv : RDSEnv)
    (rd : BackupReplicationData) (backup : DBInstanceAutomatedBackup) (a : ARN) :
    FindDBInstanceAutomatedBackupByARN renv rd.id = (some backup, none) →
    arnParse (awsToString backup.DBInstanceArn) = .ok a →
    renv.stopReplication (stopReplicationInput rd) = none →
    (resourceInstanceAutomatedBackupReplicationDelete renv rd).map (fun r => r.calls) =
      some [.findBackup rd.id, .stopReplication (stopReplicationInput rd),
            .waitDeleted (a.region != renv.region)
              (if a.region ≠ renv.region then a.region else renv.region)
              (awsToString backup.DBInstanceIdentifier) rd.id rd.timeoutCreate] ∧
    (a.region ≠ renv.region →
      (if a.region ≠ renv.region then a.region else renv.region) = a.region ∧
      (a.region != renv.region) = true) := by
  intro h1 h2 h3
  constructor
  · rcases hw : waitDBInstanceAutomatedBackupDeleted renv
        (if a.region = renv.region then renv.region else a.region)
        (awsToString backup.DBInstanceIdentifier) rd.id rd.timeoutCreate with _ | e <;>
      simp [resourceInstanceAutomatedBackupReplicationDelete, h1, h2, h3, hw, tfNotFound]
  · intro hne
    simp [hne]

/-- The parsed form of the sample source database ARN. -/
def arnW : ARN :=
  { partition := "aws", service := "rds", region := "us-east-1",
    accountID := "123456789012", resource := "db:mydb" }

/-- C10, witness: on the sample environment (client in us-west-2, source database in
us-east-1, create timeout 20 minutes, delete timeout 30 minutes) the delete handler
waits on a new client in us-east-1 with the 20-minute create timeout. -/
theorem rdsDelete_wait_createTimeout_sourceRegion_witness :
    (resourceInstanceAutomatedBackupReplicationDelete rdsEnvOk rdW).map
        (fun r => r.calls) =
      some [.findBackup rdW.id, .stopReplication (stopReplicationInput rdW),
            .waitDeleted true "us-east-1" "mydb" rdW.id (20 * minute)] :=
  (rdsDelete_wait_createTimeout_sourceRegion rdsEnvOk rdW backupW arnW rfl rfl rfl).1

end TfAws
